import Mathlib

/-!
Shallow embedding of the profile-card widget (DenisMSouza/profile-card).

The DataSource layer embeds `js/apiService.js` (class `ApiService`), the
Controller layer embeds class `ProfileCardApp`.  JavaScript values that may
be `null`/`undefined` are modelled as `Option`; the JS truthiness test on a
string field treats both the absent value and the empty string as falsy, so
the embedding of `a || b` on string-valued fields checks for `none` and
`""`.  Network interaction is modelled by an environment mapping each
request to its outcome; effects on the DOM collaborator (`DomManager`) are
recorded as an explicit trace.
-/

namespace ProfileCard

/-- Raw JSON payload of `GET {baseUrl}/{handle}`.  Each field that the code
reads may be absent (`null`/`undefined` in JS): `none` models absence,
`some s` a present string (possibly empty). -/
structure RawUser where
  id : Option Nat
  login : Option String
  name : Option String
  avatar_url : Option String
  bio : Option String
  location : Option String
  email : Option String
  company : Option String
  blog : Option String
  followers : Option Nat
  following : Option Nat
  public_repos : Option Nat
  created_at : Option String
  html_url : Option String
  deriving Repr, DecidableEq

/-- JS `a || b` where `a` is a possibly-absent string field and the result
is used as a string: absent and `""` are falsy, so they yield `b`. -/
def jsOrStr (a : Option String) (b : String) : String :=
  match a with
  | none => b
  | some s => if s = "" then b else s

/-- JS `a || b` where both sides are possibly-absent string values
(`data.name || data.login`): a falsy `a` yields `b` unchanged. -/
def jsOrOpt (a b : Option String) : Option String :=
  match a with
  | none => b
  | some s => if s = "" then b else some s

/-- JS `a || null`: a falsy string value (absent or `""`) becomes `null`. -/
def jsOrNull (a : Option String) : Option String :=
  match a with
  | none => none
  | some s => if s = "" then none else some s

/-- JS `a || 0` on a numeric field. -/
def jsOrZero (a : Option Nat) : Nat :=
  match a with
  | none => 0
  | some n => n

/-- Normalized user record returned by `ApiService.processUserData`. -/
structure UserRecord where
  id : Option Nat
  username : Option String
  name : Option String
  avatar : Option String
  bio : String
  location : String
  email : Option String
  company : Option String
  blog : Option String
  followers : Nat
  following : Nat
  publicRepos : Nat
  joinDate : Option String
  htmlUrl : Option String
  deriving Repr, DecidableEq

/-- `ApiService.processUserData`: transforms the raw payload into the clean
record, substituting the documented fallbacks for falsy fields. -/
def processUserData (data : RawUser) : UserRecord :=
  { id := data.id
    username := data.login
    name := jsOrOpt data.name data.login
    avatar := data.avatar_url
    bio := jsOrStr data.bio "No bio available"
    location := jsOrStr data.location "Location not specified"
    email := jsOrNull data.email
    company := jsOrNull data.company
    blog := jsOrNull data.blog
    followers := jsOrZero data.followers
    following := jsOrZero data.following
    publicRepos := jsOrZero data.public_repos
    joinDate := data.created_at
    htmlUrl := data.html_url }

/-- The spec taxonomy for classified errors (spec section 7).  The code
carries only messages; the kind names the branch that produced the
message.  A rethrown unclassified error is `unknown`. -/
inductive ErrKind where
  | notFound
  | rateLimited
  | serverError
  | networkUnreachable
  | unknown
  deriving Repr, DecidableEq

/-- A raised error: classification kind plus the human-readable message the
code throws. -/
structure ErrorInfo where
  kind : ErrKind
  message : String
  deriving Repr, DecidableEq

/-- JS `s.includes(sub)`: substring containment. -/
def jsIncludes (s sub : String) : Bool :=
  decide (sub.data <:+: s.data)

/-- `ApiService.handleHttpError`: maps a non-2xx HTTP status to the thrown
error.  The `switch` has cases only for 404, 403 and exactly 500; every
other status falls to the default branch. -/
def handleHttpError (status : Nat) : ErrorInfo :=
  if status = 404 then
    { kind := ErrKind.notFound, message := "User not found. Please try again." }
  else if status = 403 then
    { kind := ErrKind.rateLimited,
      message := "API rate limit exceeded. Please try again later." }
  else if status = 500 then
    { kind := ErrKind.serverError,
      message := "Server error. Please try again later." }
  else
    { kind := ErrKind.unknown,
      message := "HTTP error! status: " ++ toString status }

/-- `ApiService.handleNetworkError`: a `TypeError` whose message mentions
`fetch` (a transport failure of the Fetch API) is replaced by the fixed
network message; every other error is rethrown unchanged, hence
unclassified. -/
def handleNetworkError (name message : String) : ErrorInfo :=
  if name = "TypeError" && jsIncludes message "fetch" then
    { kind := ErrKind.networkUnreachable,
      message := "Network error. Please check your internet connection." }
  else
    { kind := ErrKind.unknown, message := message }

/-- Outcome of one `fetch(url)` call: an HTTP response (2xx with a JSON
body, or a failure status), or a rejected promise carrying an error with a
name and a message (e.g. `TypeError` / `Failed to fetch`). -/
inductive FetchOutcome where
  | httpOk (raw : RawUser)
  | httpErr (status : Nat)
  | transportErr (name message : String)
  deriving Repr, DecidableEq

/-- Result of `ApiService.fetchUserData` applied to one network outcome.
On 2xx the payload is normalized; on a failure status `handleHttpError`
throws (its error has name `Error`, so the surrounding catch's
`handleNetworkError` rethrows it unchanged); a transport rejection goes
through `handleNetworkError`. -/
def fetchResult (outcome : FetchOutcome) : Except ErrorInfo UserRecord :=
  match outcome with
  | FetchOutcome.httpOk raw => Except.ok (processUserData raw)
  | FetchOutcome.httpErr status => Except.error (handleHttpError status)
  | FetchOutcome.transportErr name message =>
      Except.error (handleNetworkError name message)

/-- `ApiService.fetchUserData username`: issues exactly one `fetch` — there
is no validation branch in the method, so the request is made whatever the
handle is.  `net` maps the requested handle to the network outcome; the
second component counts the `fetch` invocations performed. -/
def fetchUserData (net : String → FetchOutcome) (username : String) :
    Except ErrorInfo UserRecord × Nat :=
  (fetchResult (net username), 1)

/-- The retry guard in `ApiService.fetchUserWithRetry`: an error whose
message mentions `not found` or `rate limit` is never retried. -/
def nonRetryableMsg (message : String) : Bool :=
  jsIncludes message "not found" || jsIncludes message "rate limit"

/-- Outcome of a `fetchUserWithRetry` run: the value returned or the error
finally thrown, the number of `fetchUserData` attempts actually made, and
the total backoff wait inserted between attempts (milliseconds). -/
structure RetryResult where
  result : Except ErrorInfo UserRecord
  attempts : Nat
  waitMs : Nat
  deriving Repr

/-- The `for (attempt = 1; attempt <= maxRetries; attempt++)` loop of
`ApiService.fetchUserWithRetry`, unrolled on the number of remaining
attempts: `retryLoop env attempt fuel` runs the loop body from iteration
`attempt` with `fuel = maxRetries - attempt + 1` iterations left.  `env n`
is the network outcome of the n-th `fetchUserData` call.  On success the
value is returned at once; a non-retryable error is rethrown at once; when
`attempt < maxRetries` (that is, `fuel > 1`) the code waits
`2 ^ attempt * 1000` ms and retries; after the last iteration the loop
exits and the last error is thrown.  The `fuel = 0` case is never reached
from an entry with `maxRetries ≥ 1`. -/
def retryLoop (env : Nat → FetchOutcome) : Nat → Nat → RetryResult
  | _, 0 =>
      { result := Except.error
          { kind := ErrKind.unknown, message := "" },
        attempts := 0, waitMs := 0 }
  | attempt, fuel + 1 =>
      match fetchResult (env attempt) with
      | Except.ok u => { result := Except.ok u, attempts := 1, waitMs := 0 }
      | Except.error e =>
          if nonRetryableMsg e.message then
            { result := Except.error e, attempts := 1, waitMs := 0 }
          else if fuel = 0 then
            { result := Except.error e, attempts := 1, waitMs := 0 }
          else
            let rest := retryLoop env (attempt + 1) fuel
            { result := rest.result,
              attempts := rest.attempts + 1,
              waitMs := 2 ^ attempt * 1000 + rest.waitMs }

/-- `ApiService.fetchUserWithRetry username maxRetries`: runs the loop from
attempt 1.  With `maxRetries = 0` the loop body never runs and the code
throws the undefined `lastError`, modelled as `none`. -/
def fetchUserWithRetry (env : Nat → FetchOutcome) (maxRetries : Nat) :
    Option RetryResult :=
  if maxRetries = 0 then none else some (retryLoop env 1 maxRetries)

/-- The fixed candidate list `ApiService.usernames`. -/
def usernames : List String :=
  ["octocat", "defunkt", "mojombo", "wycats", "ezmobius", "ivey", "evanphx",
   "vanpelt", "wayneeseguin", "brynary", "kevinclark", "technoweenie",
   "macournoyer", "takeo", "caged", "topfunky", "anotherjesse", "roland",
   "lukas", "fanvsfan", "tomtt", "railsjitsu", "nitay", "kevwil",
   "KirinDave", "jamesgolick", "atmos", "errfree", "mojodna", "bmizerany",
   "jnewland", "josh", "fearoffish", "court3nay", "ry", "bkeepers",
   "indirect", "jamtur01", "kneath", "bendycode", "ryanseys"]

/-- `ApiService.getRandomUsername`: indexes the candidate list at
`Math.floor(Math.random() * usernames.length)`; the random draw is
modelled by the parameter `k`, reduced into range. -/
def getRandomUsername (k : Nat) : String :=
  usernames.getD (k % usernames.length) ""

/-- The code points JS `String.prototype.trim` removes: the WhiteSpace
production (TAB, VT, FF, SP, NBSP, ZWNBSP and the Unicode
space-separator category) and the LineTerminator production (LF, CR, LS,
PS). -/
def jsWhitespace (c : Char) : Bool :=
  c = '\t' || c = '\n' || c = '\x0B' || c = '\x0C' || c = '\r' ||
  c = ' ' || c = '\u00A0' || c = '\u1680' ||
  ('\u2000' ≤ c && c ≤ '\u200A') ||
  c = '\u2028' || c = '\u2029' || c = '\u202F' || c = '\u205F' ||
  c = '\u3000' || c = '\uFEFF'

/-- JS `s.trim()`: strips the JS whitespace set from both ends. -/
def jsTrim (s : String) : String :=
  String.mk
    (((s.data.dropWhile jsWhitespace).reverse.dropWhile
        jsWhitespace).reverse)

/-- `ApiService.isValidUsername`: a truthy string whose trimmed form is
non-empty. -/
def isValidUsername (username : String) : Bool :=
  username != "" && (jsTrim username).length > 0

/-- Interpolating a possibly-absent JS string value into a template or an
URL renders its text form; for the claims below only presence matters. -/
def jsShow (a : Option String) : String :=
  a.getD "undefined"

/-- One observable call the Controller makes on its collaborators:
a DataSource invocation (`fetchCall`, carrying the requested handle) or a
`DomManager` call. -/
inductive Effect where
  | fetchCall (handle : String)
  | showLoading
  | showError (message : String)
  | displayUser (u : UserRecord)
  | showProfileCard
  | notify (message level : String)
  | setFollowing (b : Bool)
  | messageModal (name username : String)
  | refreshBtnSpin
  | refreshBtnStop
  deriving Repr, DecidableEq

/-- The private state of one `ProfileCardApp` instance: `currentUser` and
`isLoading`, plus the follow-button display state that
`DomManager.toggleFollow` reads and flips. -/
structure AppState where
  currentUser : Option UserRecord
  isLoading : Bool
  following : Bool
  deriving Repr, DecidableEq

/-- The synchronous prefix of an async Controller operation: the state and
the effect trace when the operation first suspends (or returns), and, when
it suspended awaiting a DataSource call, the handle of that in-flight call
(`pending`). -/
structure StepOut where
  state : AppState
  effects : List Effect
  pending : Option String
  deriving Repr, DecidableEq

/-- Synchronous prefix of `ProfileCardApp.loadRandomUser`: the guard
returns at once while `isLoading`; otherwise the flag is set, the loading
state shown, and the fetch of a randomly chosen handle begins. -/
def loadRandomUserStart (s : AppState) (k : Nat) : StepOut :=
  if s.isLoading then { state := s, effects := [], pending := none }
  else
    let handle := getRandomUsername k
    { state := { s with isLoading := true },
      effects := [Effect.showLoading, Effect.fetchCall handle],
      pending := some handle }

/-- Synchronous prefix of `ProfileCardApp.loadUser`: the guard returns at
once while `isLoading`; an invalid username short-circuits to the error
panel without any DataSource call; otherwise the fetch of the given handle
begins. -/
def loadUserStart (s : AppState) (username : String) : StepOut :=
  if s.isLoading then { state := s, effects := [], pending := none }
  else if !(isValidUsername username) then
    { state := s,
      effects := [Effect.showError "Please enter a valid username"],
      pending := none }
  else
    { state := { s with isLoading := true },
      effects := [Effect.showLoading, Effect.fetchCall username],
      pending := some username }

/-- The message `ProfileCardApp.handleError` shows and notifies: it
starts from the fixed default and overwrites it with `error.message` only
when that is truthy (a non-empty string). -/
def handleErrorMsg (e : ErrorInfo) : String :=
  if e.message = "" then "An unexpected error occurred. Please try again."
  else e.message

/-- Resumption of `loadRandomUser`/`loadUser` when the awaited fetch
settles: on success the record is stored and displayed with a success
notice; on failure `ProfileCardApp.handleError` shows the error panel and
a notice, both with the message `handleErrorMsg` computes; the `finally`
clears `isLoading` either way. -/
def loadFinish (s : AppState) (outcome : FetchOutcome) :
    AppState × List Effect :=
  match fetchResult outcome with
  | Except.ok u =>
      ({ s with currentUser := some u, isLoading := false },
       [Effect.displayUser u, Effect.showProfileCard,
        Effect.notify ("Loaded profile for " ++ jsShow u.name) "success"])
  | Except.error e =>
      ({ s with isLoading := false },
       [Effect.showError (handleErrorMsg e),
        Effect.notify (handleErrorMsg e) "error"])

/-- Synchronous prefix of `ProfileCardApp.handleRefresh`: the guard
returns at once while `isLoading`; otherwise the refresh button spins and
`loadRandomUser` runs. -/
def handleRefreshStart (s : AppState) (k : Nat) : StepOut :=
  if s.isLoading then { state := s, effects := [], pending := none }
  else
    let inner := loadRandomUserStart s k
    { state := inner.state,
      effects := Effect.refreshBtnSpin :: inner.effects,
      pending := inner.pending }

/-- Synchronous prefix of `ProfileCardApp.refreshCurrentUser`: with no
current record it delegates to `loadRandomUser`; with one, it immediately
begins fetching the current record's handle — there is no `isLoading`
check in this method. -/
def refreshCurrentUserStart (s : AppState) (k : Nat) : StepOut :=
  match s.currentUser with
  | none => loadRandomUserStart s k
  | some u =>
      { state := s,
        effects := [Effect.fetchCall (jsShow u.username)],
        pending := some (jsShow u.username) }

/-- Resumption of `refreshCurrentUser` (current record present) when the
awaited fetch settles: on success the record is stored and displayed with
the fixed refresh notice; on failure `handleError` runs with its
default-message fallback; `isLoading` is not touched. -/
def refreshFinish (s : AppState) (outcome : FetchOutcome) :
    AppState × List Effect :=
  match fetchResult outcome with
  | Except.ok u =>
      ({ s with currentUser := some u },
       [Effect.displayUser u,
        Effect.notify "Profile refreshed successfully!" "success"])
  | Except.error e =>
      (s, [Effect.showError (handleErrorMsg e),
           Effect.notify (handleErrorMsg e) "error"])

/-- `ProfileCardApp.handleFollow`: a no-op without a current record;
otherwise flips the follow display state and emits one notice naming the
current record. -/
def handleFollow (s : AppState) : AppState × List Effect :=
  match s.currentUser with
  | none => (s, [])
  | some u =>
      let isNowFollowing := !s.following
      let message :=
        if isNowFollowing then
          "Following " ++ jsShow u.name ++ " successfully!"
        else
          "Unfollowed " ++ jsShow u.name ++ " successfully!"
      ({ s with following := isNowFollowing },
       [Effect.setFollowing isNowFollowing, Effect.notify message "success"])

/-- `ProfileCardApp.handleMessage`: a no-op without a current record;
otherwise surfaces the placeholder modal naming the current record. -/
def handleMessage (s : AppState) : AppState × List Effect :=
  match s.currentUser with
  | none => (s, [])
  | some u => (s, [Effect.messageModal (jsShow u.name) (jsShow u.username)])

/-- A full uninterleaved run of `loadRandomUser`: the synchronous prefix
followed, when a fetch was begun, by its resumption on `outcome`. -/
def runLoadRandomUser (s : AppState) (k : Nat) (outcome : FetchOutcome) :
    AppState × List Effect :=
  let st := loadRandomUserStart s k
  match st.pending with
  | none => (st.state, st.effects)
  | some _ =>
      let fin := loadFinish st.state outcome
      (fin.1, st.effects ++ fin.2)

/-- A full uninterleaved run of `loadUser`. -/
def runLoadUser (s : AppState) (username : String) (outcome : FetchOutcome) :
    AppState × List Effect :=
  let st := loadUserStart s username
  match st.pending with
  | none => (st.state, st.effects)
  | some _ =>
      let fin := loadFinish st.state outcome
      (fin.1, st.effects ++ fin.2)

/-- A full uninterleaved run of `refreshCurrentUser`. -/
def runRefreshCurrentUser (s : AppState) (k : Nat) (outcome : FetchOutcome) :
    AppState × List Effect :=
  match s.currentUser with
  | none => runLoadRandomUser s k outcome
  | some u =>
      let fin := refreshFinish s outcome
      (fin.1, Effect.fetchCall (jsShow u.username) :: fin.2)

/-- Number of DataSource invocations in a trace. -/
def countFetch (effects : List Effect) : Nat :=
  effects.countP (fun e =>
    match e with
    | Effect.fetchCall _ => true
    | _ => false)

/-- Two refresh clicks in immediate succession: the second click's handler
runs while the first is suspended at its await (the JS event loop runs it
synchronously to completion there, since it no-ops on the `isLoading`
guard), after which the first click's load resumes and completes. -/
def refreshTwice (s : AppState) (k₁ k₂ : Nat) (outcome : FetchOutcome) :
    AppState × List Effect :=
  let st₁ := handleRefreshStart s k₁
  let st₂ := handleRefreshStart st₁.state k₂
  match st₁.pending with
  | none => (st₂.state, st₁.effects ++ st₂.effects)
  | some _ =>
      let fin := loadFinish st₂.state outcome
      (fin.1, st₁.effects ++ st₂.effects ++ fin.2 ++ [Effect.refreshBtnStop])

/-- Number of transient notifications (`DomManager.showNotification`) in a
trace. -/
def countNotify (effects : List Effect) : Nat :=
  effects.countP (fun e =>
    match e with
    | Effect.notify _ _ => true
    | _ => false)

/-- An outcome whose failure, if any, the spec taxonomy classifies: an
HTTP failure status, or a transport rejection of the Fetch API (a
`TypeError` mentioning `fetch`).  A foreign error rethrown unchanged by
`handleNetworkError` is outside the taxonomy. -/
def classifiedOutcome : FetchOutcome → Prop
  | FetchOutcome.httpOk _ => True
  | FetchOutcome.httpErr _ => True
  | FetchOutcome.transportErr name message =>
      name = "TypeError" ∧ jsIncludes message "fetch" = true

/-- A concrete successful payload, used to instantiate theorems. -/
def sampleRaw : RawUser :=
  { id := some 1, login := some "octocat", name := some "The Octocat",
    avatar_url := some "https://avatars.example/u/1", bio := none,
    location := none, email := none, company := none, blog := none,
    followers := some 3, following := some 2, public_repos := some 8,
    created_at := some "2011-01-25T18:44:36Z",
    html_url := some "https://github.com/octocat" }

/-- The normalized form of `sampleRaw`. -/
def sampleUser : UserRecord := processUserData sampleRaw

/-- A widget instance that has not loaded anything yet. -/
def idleState : AppState :=
  { currentUser := none, isLoading := false, following := false }

/-- A widget instance holding a loaded record, not loading. -/
def loadedState : AppState :=
  { currentUser := some sampleUser, isLoading := false, following := false }

/-- A widget instance holding a loaded record while a load is in flight. -/
def busyLoadedState : AppState :=
  { currentUser := some sampleUser, isLoading := true, following := false }

/-! Lemmas: characters of a rendered numeral, and the correspondence
between error kinds and the message test the retry loop performs. -/

theorem digitChar_isDigit : ∀ m, m < 10 → (Nat.digitChar m).isDigit = true := by
  decide

theorem toDigitsCore_digits (fuel : Nat) :
    ∀ (n : Nat) (ds : List Char), (∀ c ∈ ds, c.isDigit = true) →
      ∀ c ∈ Nat.toDigitsCore 10 fuel n ds, c.isDigit = true := by
  induction fuel with
  | zero =>
      intro n ds hds c hc
      exact hds c (by simpa [Nat.toDigitsCore] using hc)
  | succ fuel ih =>
      intro n ds hds c hc
      simp only [Nat.toDigitsCore] at hc
      by_cases hq : n / 10 = 0
      · rw [if_pos hq] at hc
        rcases List.mem_cons.mp hc with h | h
        · subst h
          exact digitChar_isDigit _ (Nat.mod_lt _ (by norm_num))
        · exact hds c h
      · rw [if_neg hq] at hc
        refine ih (n / 10) _ ?_ c hc
        intro c' hc'
        rcases List.mem_cons.mp hc' with h | h
        · subst h
          exact digitChar_isDigit _ (Nat.mod_lt _ (by norm_num))
        · exact hds c' h

theorem repr_digits (n : Nat) : ∀ c ∈ (Nat.repr n).data, c.isDigit = true := by
  intro c hc
  have h : (Nat.repr n).data = Nat.toDigitsCore 10 (n + 1) n [] := rfl
  rw [h] at hc
  exact toDigitsCore_digits (n + 1) n []
    (by intro c' hc'; cases hc') c hc

theorem jsIncludes_eq_false {c : Char} (s sub : String)
    (hc : c ∈ sub.data) (hs : c ∉ s.data) : jsIncludes s sub = false := by
  unfold jsIncludes
  rw [decide_eq_false_iff_not]
  intro h
  exact hs (h.subset hc)

theorem default_http_msg_retried (status : Nat) :
    nonRetryableMsg ("HTTP error! status: " ++ toString status) = false := by
  unfold nonRetryableMsg
  rw [Bool.or_eq_false_iff]
  have hdata : ("HTTP error! status: " ++ toString status).data
      = "HTTP error! status: ".data ++ (Nat.repr status).data :=
    String.data_append _ _
  constructor
  · refine jsIncludes_eq_false (c := 'f') _ _ (by decide) ?_
    rw [hdata, List.mem_append]
    rintro (h | h)
    · exact absurd h (by decide)
    · have := repr_digits status 'f' h
      exact absurd this (by decide)
  · refine jsIncludes_eq_false (c := 'l') _ _ (by decide) ?_
    rw [hdata, List.mem_append]
    rintro (h | h)
    · exact absurd h (by decide)
    · have := repr_digits status 'l' h
      exact absurd this (by decide)

theorem stop_msg_of_terminal_kind (o : FetchOutcome) (e : ErrorInfo)
    (ho : fetchResult o = Except.error e)
    (hk : e.kind = ErrKind.notFound ∨ e.kind = ErrKind.rateLimited) :
    nonRetryableMsg e.message = true := by
  cases o with
  | httpOk raw => simp [fetchResult] at ho
  | httpErr status =>
      simp only [fetchResult, Except.error.injEq] at ho
      subst ho
      unfold handleHttpError at hk ⊢
      by_cases h4 : status = 404
      · simp only [h4, if_pos, if_true]
        decide
      · by_cases h3 : status = 403
        · simp only [h4, h3, if_neg, if_pos, if_false, if_true]
          decide
        · by_cases h5 : status = 500
          · simp [h4, h3, h5] at hk
          · simp [h4, h3, h5] at hk
  | transportErr name message =>
      simp only [fetchResult, Except.error.injEq] at ho
      subst ho
      unfold handleNetworkError at hk
      by_cases hcond : (name = "TypeError" && jsIncludes message "fetch") = true
      · simp [hcond] at hk
      · simp [hcond] at hk

theorem retryable_kind_of_msg (o : FetchOutcome) (e : ErrorInfo)
    (ho : fetchResult o = Except.error e)
    (hm : nonRetryableMsg e.message = false) :
    e.kind = ErrKind.serverError ∨ e.kind = ErrKind.networkUnreachable ∨
      e.kind = ErrKind.unknown := by
  cases hk : e.kind with
  | notFound =>
      have := stop_msg_of_terminal_kind o e ho (Or.inl hk)
      rw [this] at hm
      cases hm
  | rateLimited =>
      have := stop_msg_of_terminal_kind o e ho (Or.inr hk)
      rw [this] at hm
      cases hm
  | serverError => exact Or.inl rfl
  | networkUnreachable => exact Or.inr (Or.inl rfl)
  | unknown => exact Or.inr (Or.inr rfl)

theorem msg_retried_of_retryable_kind (o : FetchOutcome) (e : ErrorInfo)
    (hc : classifiedOutcome o)
    (ho : fetchResult o = Except.error e)
    (hk : e.kind = ErrKind.serverError ∨ e.kind = ErrKind.networkUnreachable ∨
      e.kind = ErrKind.unknown) :
    nonRetryableMsg e.message = false := by
  cases o with
  | httpOk raw => simp [fetchResult] at ho
  | httpErr status =>
      simp only [fetchResult, Except.error.injEq] at ho
      subst ho
      unfold handleHttpError at hk ⊢
      by_cases h4 : status = 404
      · simp [h4] at hk
      · by_cases h3 : status = 403
        · simp [h4, h3] at hk
        · by_cases h5 : status = 500
          · simp only [h4, h3, h5, if_neg, if_pos, if_false, if_true]
            decide
          · simp only [h4, h3, h5, if_neg, if_false]
            exact default_http_msg_retried status
  | transportErr name message =>
      simp only [fetchResult, Except.error.injEq] at ho
      subst ho
      rcases hc with ⟨hname, hfetch⟩
      unfold handleNetworkError
      simp [hname, hfetch]
      decide

/-! Unfolding equations for one iteration of the retry loop, and its
invariants, by induction on the remaining fuel generalizing the current
attempt index. -/

theorem retryLoop_succ_ok (env : Nat → FetchOutcome) (a fuel : Nat)
    (u : UserRecord) (hE : fetchResult (env a) = Except.ok u) :
    retryLoop env a (fuel + 1) =
      { result := Except.ok u, attempts := 1, waitMs := 0 } := by
  simp [retryLoop, hE]

theorem retryLoop_succ_stop (env : Nat → FetchOutcome) (a fuel : Nat)
    (e : ErrorInfo) (hE : fetchResult (env a) = Except.error e)
    (hm : nonRetryableMsg e.message = true) :
    retryLoop env a (fuel + 1) =
      { result := Except.error e, attempts := 1, waitMs := 0 } := by
  simp [retryLoop, hE, hm]

theorem retryLoop_succ_exhaust (env : Nat → FetchOutcome) (a : Nat)
    (e : ErrorInfo) (hE : fetchResult (env a) = Except.error e)
    (hm : nonRetryableMsg e.message = false) :
    retryLoop env a 1 =
      { result := Except.error e, attempts := 1, waitMs := 0 } := by
  simp [retryLoop, hE, hm]

theorem retryLoop_succ_step (env : Nat → FetchOutcome) (a fuel : Nat)
    (e : ErrorInfo) (hE : fetchResult (env a) = Except.error e)
    (hm : nonRetryableMsg e.message = false) (hf : fuel ≠ 0) :
    retryLoop env a (fuel + 1) =
      { result := (retryLoop env (a + 1) fuel).result,
        attempts := (retryLoop env (a + 1) fuel).attempts + 1,
        waitMs := 2 ^ a * 1000 + (retryLoop env (a + 1) fuel).waitMs } := by
  simp [retryLoop, hE, hm, hf]

theorem retryLoop_attempts_bounds (env : Nat → FetchOutcome) :
    ∀ (fuel a : Nat), 1 ≤ fuel →
      1 ≤ (retryLoop env a fuel).attempts ∧
        (retryLoop env a fuel).attempts ≤ fuel := by
  intro fuel
  induction fuel with
  | zero => intro a h; cases h
  | succ fuel ih =>
      intro a _
      cases hE : fetchResult (env a) with
      | ok u =>
          rw [retryLoop_succ_ok env a fuel u hE]
          exact ⟨Nat.le_refl 1, (by omega : 1 ≤ fuel + 1)⟩
      | error e =>
          cases hm : nonRetryableMsg e.message with
          | true =>
              rw [retryLoop_succ_stop env a fuel e hE hm]
              exact ⟨Nat.le_refl 1, (by omega : 1 ≤ fuel + 1)⟩
          | false =>
              by_cases hf : fuel = 0
              · rw [hf]
                rw [retryLoop_succ_exhaust env a e hE hm]
                exact ⟨Nat.le_refl 1, (by omega : 1 ≤ 0 + 1)⟩
              · rw [retryLoop_succ_step env a fuel e hE hm hf]
                have h := ih (a + 1) (Nat.one_le_iff_ne_zero.mpr hf)
                show 1 ≤ (retryLoop env (a + 1) fuel).attempts + 1 ∧
                  (retryLoop env (a + 1) fuel).attempts + 1 ≤ fuel + 1
                omega

theorem retryLoop_mid_errors (env : Nat → FetchOutcome) :
    ∀ (fuel a j : Nat), j + 1 < (retryLoop env a fuel).attempts →
      ∃ e, fetchResult (env (a + j)) = Except.error e ∧
        nonRetryableMsg e.message = false := by
  intro fuel
  induction fuel with
  | zero =>
      intro a j h
      simp [retryLoop] at h
  | succ fuel ih =>
      intro a j h
      cases hE : fetchResult (env a) with
      | ok u =>
          rw [retryLoop_succ_ok env a fuel u hE] at h
          exact absurd (show j + 1 < 1 from h) (by omega)
      | error e =>
          cases hm : nonRetryableMsg e.message with
          | true =>
              rw [retryLoop_succ_stop env a fuel e hE hm] at h
              exact absurd (show j + 1 < 1 from h) (by omega)
          | false =>
              by_cases hf : fuel = 0
              · rw [hf] at h
                rw [retryLoop_succ_exhaust env a e hE hm] at h
                exact absurd (show j + 1 < 1 from h) (by omega)
              · rw [retryLoop_succ_step env a fuel e hE hm hf] at h
                have h' : j + 1 < (retryLoop env (a + 1) fuel).attempts + 1 := h
                cases j with
                | zero => exact ⟨e, by simpa using hE, hm⟩
                | succ j' =>
                    have hrec := ih (a + 1) j' (by omega)
                    have harith : a + 1 + j' = a + (j' + 1) := by omega
                    rwa [harith] at hrec

theorem retryLoop_last_error (env : Nat → FetchOutcome) :
    ∀ (fuel a : Nat) (e : ErrorInfo), 1 ≤ fuel →
      (retryLoop env a fuel).result = Except.error e →
      fetchResult (env (a + ((retryLoop env a fuel).attempts - 1)))
        = Except.error e := by
  intro fuel
  induction fuel with
  | zero => intro a e h; cases h
  | succ fuel ih =>
      intro a e _ hres
      cases hE : fetchResult (env a) with
      | ok u =>
          rw [retryLoop_succ_ok env a fuel u hE] at hres
          exact absurd (show Except.ok u = Except.error e from hres) (by simp)
      | error e' =>
          cases hm : nonRetryableMsg e'.message with
          | true =>
              rw [retryLoop_succ_stop env a fuel e' hE hm] at hres ⊢
              have he : e' = e := by
                simpa using hres
              subst he
              simpa using hE
          | false =>
              by_cases hf : fuel = 0
              · rw [hf] at hres ⊢
                rw [retryLoop_succ_exhaust env a e' hE hm] at hres ⊢
                have he : e' = e := by
                  simpa using hres
                subst he
                simpa using hE
              · rw [retryLoop_succ_step env a fuel e' hE hm hf] at hres ⊢
                have hres' : (retryLoop env (a + 1) fuel).result
                    = Except.error e := hres
                have hb := retryLoop_attempts_bounds env fuel (a + 1)
                  (Nat.one_le_iff_ne_zero.mpr hf)
                have hrec := ih (a + 1) e (Nat.one_le_iff_ne_zero.mpr hf) hres'
                show fetchResult
                    (env (a + ((retryLoop env (a + 1) fuel).attempts + 1 - 1)))
                  = Except.error e
                have harith : a + ((retryLoop env (a + 1) fuel).attempts + 1 - 1)
                    = a + 1 + ((retryLoop env (a + 1) fuel).attempts - 1) := by
                  omega
                rw [harith]
                exact hrec

theorem retryLoop_wait_sum (env : Nat → FetchOutcome) :
    ∀ (fuel a : Nat),
      (retryLoop env a fuel).waitMs =
        1000 * ∑ i in
          Finset.Ico a (a + ((retryLoop env a fuel).attempts - 1)), 2 ^ i := by
  intro fuel
  induction fuel with
  | zero => intro a; simp [retryLoop]
  | succ fuel ih =>
      intro a
      cases hE : fetchResult (env a) with
      | ok u => rw [retryLoop_succ_ok env a fuel u hE]; simp
      | error e =>
          cases hm : nonRetryableMsg e.message with
          | true => rw [retryLoop_succ_stop env a fuel e hE hm]; simp
          | false =>
              by_cases hf : fuel = 0
              · rw [hf, retryLoop_succ_exhaust env a e hE hm]; simp
              · rw [retryLoop_succ_step env a fuel e hE hm hf]
                have hb := retryLoop_attempts_bounds env fuel (a + 1)
                  (Nat.one_le_iff_ne_zero.mpr hf)
                show 2 ^ a * 1000 + (retryLoop env (a + 1) fuel).waitMs
                    = 1000 * ∑ i in
                      Finset.Ico a
                        (a + ((retryLoop env (a + 1) fuel).attempts + 1 - 1)),
                      2 ^ i
                have harith : a + ((retryLoop env (a + 1) fuel).attempts + 1 - 1)
                    = a + (retryLoop env (a + 1) fuel).attempts := by
                  omega
                rw [harith, Finset.sum_eq_sum_Ico_succ_bot (by omega)]
                have hup : a + (retryLoop env (a + 1) fuel).attempts
                    = a + 1 + ((retryLoop env (a + 1) fuel).attempts - 1) := by
                  omega
                rw [hup, ih (a + 1)]
                ring

theorem retryLoop_all_fail (env : Nat → FetchOutcome) :
    ∀ (fuel a : Nat), 1 ≤ fuel →
      (∀ i, a ≤ i → i < a + fuel →
        ∃ e, fetchResult (env i) = Except.error e ∧
          nonRetryableMsg e.message = false) →
      (retryLoop env a fuel).attempts = fuel ∧
        ∃ e, (retryLoop env a fuel).result = Except.error e := by
  intro fuel
  induction fuel with
  | zero => intro a h; cases h
  | succ fuel ih =>
      intro a _ hall
      obtain ⟨e, hE, hm⟩ := hall a (Nat.le_refl a) (by omega)
      by_cases hf : fuel = 0
      · rw [hf]
        rw [retryLoop_succ_exhaust env a e hE hm]
        exact ⟨rfl, e, rfl⟩
      · rw [retryLoop_succ_step env a fuel e hE hm hf]
        have hrec := ih (a + 1) (Nat.one_le_iff_ne_zero.mpr hf)
          (by intro i h1 h2; exact hall i (by omega) (by omega))
        refine ⟨?_, ?_⟩
        · show (retryLoop env (a + 1) fuel).attempts + 1 = fuel + 1
          omega
        · obtain ⟨e', he'⟩ := hrec.2
          exact ⟨e', he'⟩


/-! Helper lemmas about the JS falsy-fallback combinators. -/

theorem jsOrStr_ne_empty (a : Option String) (b : String) (hb : b ≠ "") :
    jsOrStr a b ≠ "" := by
  cases a with
  | none => exact hb
  | some s =>
      by_cases hs : s = ""
      · simp only [jsOrStr, if_pos hs]
        exact hb
      · simp only [jsOrStr, if_neg hs]
        exact hs

theorem jsOrNull_ne_empty (a : Option String) :
    ∀ x, jsOrNull a = some x → x ≠ "" := by
  intro x hx
  cases a with
  | none => simp [jsOrNull] at hx
  | some s =>
      by_cases hs : s = ""
      · simp [jsOrNull, hs] at hx
      · simp only [jsOrNull, if_neg hs, Option.some.injEq] at hx
        subst hx
        exact hs

theorem jsOrOpt_some_ne_empty (a : Option String) (h : String) (hne : h ≠ "") :
    ∀ x, jsOrOpt a (some h) = some x → x ≠ "" := by
  intro x hx
  cases a with
  | none =>
      simp only [jsOrOpt, Option.some.injEq] at hx
      subst hx
      exact hne
  | some s =>
      by_cases hs : s = ""
      · simp only [jsOrOpt, if_pos hs, Option.some.injEq] at hx
        subst hx
        exact hne
      · simp only [jsOrOpt, if_neg hs, Option.some.injEq] at hx
        subst hx
        exact hs

/-! The claims. -/

/-- Claim C5 (confirmed): `fetchUserWithRetry` makes between 1 and `n`
attempts; every attempt that was followed by a retry failed with a kind in
{ServerError, NetworkUnreachable, Unknown}; a first failure of kind
NotFound or RateLimited is re-raised at once with exactly one attempt
made; and the error finally raised is the one encountered on the last
attempt made. -/
theorem retry_policy (env : Nat → FetchOutcome) (n : Nat) (r : RetryResult)
    (hn : 1 ≤ n) (hr : fetchUserWithRetry env n = some r) :
    (1 ≤ r.attempts ∧ r.attempts ≤ n) ∧
    (∀ e, fetchResult (env 1) = Except.error e →
      (e.kind = ErrKind.notFound ∨ e.kind = ErrKind.rateLimited) →
      r.result = Except.error e ∧ r.attempts = 1) ∧
    (∀ i, 1 ≤ i → i < r.attempts →
      ∃ e, fetchResult (env i) = Except.error e ∧
        (e.kind = ErrKind.serverError ∨ e.kind = ErrKind.networkUnreachable ∨
          e.kind = ErrKind.unknown)) ∧
    (∀ e, r.result = Except.error e →
      fetchResult (env r.attempts) = Except.error e) := by
  have hreq : r = retryLoop env 1 n := by
    unfold fetchUserWithRetry at hr
    rw [if_neg (by omega)] at hr
    exact (Option.some.inj hr).symm
  subst hreq
  refine ⟨retryLoop_attempts_bounds env n 1 hn, ?_, ?_, ?_⟩
  · intro e hE hk
    have hm := stop_msg_of_terminal_kind (env 1) e hE hk
    obtain ⟨m, rfl⟩ : ∃ m, n = m + 1 := ⟨n - 1, by omega⟩
    rw [retryLoop_succ_stop env 1 m e hE hm]
    exact ⟨rfl, rfl⟩
  · intro i h1 hi
    obtain ⟨e, hE, hm⟩ := retryLoop_mid_errors env n 1 (i - 1) (by omega)
    have harith : 1 + (i - 1) = i := by omega
    rw [harith] at hE
    exact ⟨e, hE, retryable_kind_of_msg (env i) e hE hm⟩
  · intro e hres
    have h := retryLoop_last_error env n 1 e hn hres
    have hb := retryLoop_attempts_bounds env n 1 hn
    have harith : 1 + ((retryLoop env 1 n).attempts - 1)
        = (retryLoop env 1 n).attempts := by omega
    rwa [harith] at h

/-- Witness for C5: three attempts against a server that always answers
500. -/
theorem retry_policy_witness :
    1 ≤ (retryLoop (fun _ => FetchOutcome.httpErr 500) 1 3).attempts ∧
    (retryLoop (fun _ => FetchOutcome.httpErr 500) 1 3).attempts ≤ 3 :=
  (retry_policy (fun _ => FetchOutcome.httpErr 500) 3
    (retryLoop (fun _ => FetchOutcome.httpErr 500) 1 3) (by omega) rfl).1

/-- Claim C6 (confirmed): the total backoff wait equals
`2 ^ 1 + … + 2 ^ (attempts - 1)` seconds — in particular no wait follows
the final attempt — and when every one of the `n` attempts fails with a
classified failure of retryable kind, all `n` attempts are made and the
total wait is `2 ^ 1 + … + 2 ^ (n - 1)` seconds (stated in
milliseconds). -/
theorem retry_backoff (env : Nat → FetchOutcome) (n : Nat) (r : RetryResult)
    (hn : 1 ≤ n) (hr : fetchUserWithRetry env n = some r) :
    r.waitMs = 1000 * ∑ i in Finset.Ico 1 r.attempts, 2 ^ i ∧
    ((∀ i, 1 ≤ i → i ≤ n → classifiedOutcome (env i) ∧
        ∃ e, fetchResult (env i) = Except.error e ∧
          (e.kind = ErrKind.serverError ∨ e.kind = ErrKind.networkUnreachable ∨
            e.kind = ErrKind.unknown)) →
      r.attempts = n ∧ r.waitMs = 1000 * ∑ i in Finset.Ico 1 n, 2 ^ i) := by
  have hreq : r = retryLoop env 1 n := by
    unfold fetchUserWithRetry at hr
    rw [if_neg (by omega)] at hr
    exact (Option.some.inj hr).symm
  subst hreq
  have hb := retryLoop_attempts_bounds env n 1 hn
  have hw := retryLoop_wait_sum env n 1
  have harith : 1 + ((retryLoop env 1 n).attempts - 1)
      = (retryLoop env 1 n).attempts := by omega
  rw [harith] at hw
  refine ⟨hw, ?_⟩
  intro hall
  have hall' : ∀ i, 1 ≤ i → i < 1 + n →
      ∃ e, fetchResult (env i) = Except.error e ∧
        nonRetryableMsg e.message = false := by
    intro i h1 h2
    obtain ⟨hc, e, hE, hk⟩ := hall i h1 (by omega)
    exact ⟨e, hE, msg_retried_of_retryable_kind (env i) e hc hE hk⟩
  have hfa := retryLoop_all_fail env n 1 hn hall'
  refine ⟨hfa.1, ?_⟩
  rw [hw, hfa.1]

/-- Witness for C6: three attempts against a server that always answers
500 wait 2 + 4 seconds in total. -/
theorem retry_backoff_witness :
    (retryLoop (fun _ => FetchOutcome.httpErr 500) 1 3).attempts = 3 ∧
    (retryLoop (fun _ => FetchOutcome.httpErr 500) 1 3).waitMs
      = 1000 * ∑ i in Finset.Ico 1 3, 2 ^ i := by
  have h := retry_backoff (fun _ => FetchOutcome.httpErr 500) 3
    (retryLoop (fun _ => FetchOutcome.httpErr 500) 1 3) (by omega) rfl
  refine h.2 ?_
  intro i h1 h2
  refine ⟨trivial, handleHttpError 500, rfl, Or.inl ?_⟩
  decide

/-- Claim C7 (confirmed): normalization substitutes the documented
fallback for each missing optional field, and (for a payload whose
`login`, the handle, is a non-empty string, as every successful fetch
carries) every optional field of the resulting record is a non-empty
string or the absent marker, never the empty string. -/
theorem normalization_fallbacks (raw : RawUser) (h : String)
    (hl : raw.login = some h) (hne : h ≠ "") :
    ((raw.bio = none → (processUserData raw).bio = "No bio available") ∧
     (raw.location = none →
       (processUserData raw).location = "Location not specified") ∧
     (raw.name = none → (processUserData raw).name = some h) ∧
     (raw.email = none → (processUserData raw).email = none) ∧
     (raw.company = none → (processUserData raw).company = none) ∧
     (raw.blog = none → (processUserData raw).blog = none)) ∧
    ((processUserData raw).bio ≠ "" ∧
     (processUserData raw).location ≠ "" ∧
     (∀ x, (processUserData raw).name = some x → x ≠ "") ∧
     (∀ x, (processUserData raw).email = some x → x ≠ "") ∧
     (∀ x, (processUserData raw).company = some x → x ≠ "") ∧
     (∀ x, (processUserData raw).blog = some x → x ≠ "")) := by
  constructor
  · refine ⟨?_, ?_, ?_, ?_, ?_, ?_⟩
    · intro hb; simp [processUserData, hb, jsOrStr]
    · intro hb; simp [processUserData, hb, jsOrStr]
    · intro hb; simp [processUserData, hb, hl, jsOrOpt]
    · intro hb; simp [processUserData, hb, jsOrNull]
    · intro hb; simp [processUserData, hb, jsOrNull]
    · intro hb; simp [processUserData, hb, jsOrNull]
  · refine ⟨?_, ?_, ?_, ?_, ?_, ?_⟩
    · exact jsOrStr_ne_empty raw.bio _ (by decide)
    · exact jsOrStr_ne_empty raw.location _ (by decide)
    · intro x hx
      have hx' : jsOrOpt raw.name (some h) = some x := by
        rw [← hl]
        exact hx
      exact jsOrOpt_some_ne_empty raw.name h hne x hx'
    · exact jsOrNull_ne_empty raw.email
    · exact jsOrNull_ne_empty raw.company
    · exact jsOrNull_ne_empty raw.blog

/-- Witness for C7: the sample payload with absent bio and email. -/
theorem normalization_fallbacks_witness :
    (processUserData sampleRaw).bio = "No bio available" ∧
    (processUserData sampleRaw).email = none ∧
    (processUserData sampleRaw).location = "Location not specified" :=
  have h := normalization_fallbacks sampleRaw "octocat" rfl (by decide)
  ⟨h.1.1 rfl, h.1.2.2.2.1 rfl, h.1.2.1 rfl⟩

/-- Claim C9 (confirmed): a load operation that ends in a DataSource
failure leaves `currentUser` unchanged — a previously loaded record is
neither cleared nor replaced by a failure. -/
theorem failed_load_frame (s : AppState) (username : String) (k : Nat)
    (outcome : FetchOutcome) (e : ErrorInfo)
    (h : fetchResult outcome = Except.error e) :
    (runLoadRandomUser s k outcome).1.currentUser = s.currentUser ∧
    (runLoadUser s username outcome).1.currentUser = s.currentUser ∧
    (runRefreshCurrentUser s k outcome).1.currentUser = s.currentUser := by
  have hload : ∀ t : AppState,
      (loadFinish t outcome).1.currentUser = t.currentUser := by
    intro t
    simp [loadFinish, h]
  have h1 : (runLoadRandomUser s k outcome).1.currentUser = s.currentUser := by
    unfold runLoadRandomUser loadRandomUserStart
    by_cases hl : s.isLoading <;> simp [hl, hload]
  have h2 : (runLoadUser s username outcome).1.currentUser = s.currentUser := by
    unfold runLoadUser loadUserStart
    by_cases hl : s.isLoading
    · simp [hl]
    · by_cases hv : isValidUsername username <;> simp [hl, hv, hload]
  refine ⟨h1, h2, ?_⟩
  unfold runRefreshCurrentUser
  cases hc : s.currentUser with
  | none => exact h1.trans hc
  | some u => simp [refreshFinish, h, hc]

/-- Witness for C9: a 404 while a record is loaded keeps the record. -/
theorem failed_load_frame_witness :
    (runLoadRandomUser loadedState 0 (FetchOutcome.httpErr 404)).1.currentUser
      = loadedState.currentUser ∧
    (runRefreshCurrentUser loadedState 0 (FetchOutcome.httpErr 404)).1.currentUser
      = loadedState.currentUser :=
  have h := failed_load_frame loadedState "octocat" 0 (FetchOutcome.httpErr 404)
    (handleHttpError 404) rfl
  ⟨h.1, h.2.2⟩

/-- Claim C10 (confirmed): without a current record, the follow and
message interactions are complete no-ops — no effect is emitted and the
state is unchanged. -/
theorem idle_interactions_noop (s : AppState) (h : s.currentUser = none) :
    handleFollow s = (s, []) ∧ handleMessage s = (s, []) := by
  constructor <;> simp [handleFollow, handleMessage, h]

/-- Witness for C10: the freshly initialized widget. -/
theorem idle_interactions_noop_witness :
    handleFollow idleState = (idleState, []) ∧
    handleMessage idleState = (idleState, []) :=
  idle_interactions_noop idleState rfl

/-- Counterexample to C1 as stated: with a record loaded and the loading
flag set, `refreshCurrentUser` is not a no-op — it makes a DataSource
invocation. -/
theorem refresh_unguarded_cex :
    busyLoadedState.isLoading = true ∧
    countFetch (refreshCurrentUserStart busyLoadedState 0).effects = 1 ∧
    ¬countFetch (refreshCurrentUserStart busyLoadedState 0).effects = 0 := by
  decide

/-- Claim C1 (amended): while a load is in flight, `loadRandomUser`,
`loadUser` and the refresh handler are silent no-ops (no state change, no
effect, no DataSource invocation), and two refresh clicks in immediate
succession make exactly one DataSource invocation; but
`refreshCurrentUser` does not check the loading flag and, when a current
record exists, invokes the DataSource even while a load is in flight. -/
theorem loading_guard (s : AppState) (k k2 : Nat) (username : String)
    (outcome : FetchOutcome) :
    (s.isLoading = true →
      loadRandomUserStart s k =
        { state := s, effects := [], pending := none } ∧
      loadUserStart s username =
        { state := s, effects := [], pending := none } ∧
      handleRefreshStart s k =
        { state := s, effects := [], pending := none }) ∧
    (s.isLoading = false →
      countFetch (refreshTwice s k k2 outcome).2 = 1) ∧
    (∀ u, s.isLoading = true → s.currentUser = some u →
      countFetch (refreshCurrentUserStart s k).effects = 1) := by
  refine ⟨?_, ?_, ?_⟩
  · intro hl
    refine ⟨?_, ?_, ?_⟩ <;>
      simp [loadRandomUserStart, loadUserStart, handleRefreshStart, hl]
  · intro hl
    cases hE : fetchResult outcome with
    | ok u =>
        simp [refreshTwice, handleRefreshStart, loadRandomUserStart, hl,
          loadFinish, hE, countFetch]
    | error e =>
        simp [refreshTwice, handleRefreshStart, loadRandomUserStart, hl,
          loadFinish, hE, countFetch]
  · intro u hl hc
    simp [refreshCurrentUserStart, hc, countFetch]

/-- Witness for C1 (amended): concrete busy and idle instances. -/
theorem loading_guard_witness :
    loadRandomUserStart busyLoadedState 0 =
      { state := busyLoadedState, effects := [], pending := none } ∧
    countFetch (refreshTwice loadedState 0 1 (FetchOutcome.httpErr 404)).2 = 1 ∧
    countFetch (refreshCurrentUserStart busyLoadedState 0).effects = 1 :=
  have h := loading_guard busyLoadedState 0 1 "octocat" (FetchOutcome.httpErr 404)
  have h2 := loading_guard loadedState 0 1 "octocat" (FetchOutcome.httpErr 404)
  ⟨(h.1 rfl).1, h2.2.1 rfl, h.2.2 sampleUser rfl rfl⟩

/-- Counterexample to C2 as stated: with the record for handle `octocat`
current, the refresh-button event begins a load of a randomly chosen
handle (`defunkt` for this draw), not of the current handle. -/
theorem refresh_random_cex :
    loadedState.currentUser = some sampleUser ∧
    jsShow sampleUser.username = "octocat" ∧
    loadedState.isLoading = false ∧
    (handleRefreshStart loadedState 1).pending = some "defunkt" ∧
    ¬(handleRefreshStart loadedState 1).pending = some "octocat" ∧
    ¬Effect.fetchCall "octocat" ∈ (handleRefreshStart loadedState 1).effects := by
  decide

/-- Claim C2 (amended): the refresh-button event always performs a random
load; it is the `refreshCurrentUser` operation that targets the current
record's handle when one exists and degrades to a random load when none
does. -/
theorem refresh_targets (s : AppState) (k : Nat) (u : UserRecord) :
    (s.currentUser = some u →
      refreshCurrentUserStart s k =
        { state := s, effects := [Effect.fetchCall (jsShow u.username)],
          pending := some (jsShow u.username) }) ∧
    (s.currentUser = none →
      refreshCurrentUserStart s k = loadRandomUserStart s k) ∧
    (s.isLoading = false →
      (handleRefreshStart s k).pending = some (getRandomUsername k)) := by
  refine ⟨?_, ?_, ?_⟩
  · intro hc
    simp [refreshCurrentUserStart, hc]
  · intro hc
    simp [refreshCurrentUserStart, hc]
  · intro hl
    simp [handleRefreshStart, loadRandomUserStart, hl]

/-- Witness for C2 (amended): concrete loaded and idle instances. -/
theorem refresh_targets_witness :
    refreshCurrentUserStart loadedState 1 =
      { state := loadedState, effects := [Effect.fetchCall "octocat"],
        pending := some "octocat" } ∧
    refreshCurrentUserStart idleState 1 = loadRandomUserStart idleState 1 ∧
    (handleRefreshStart loadedState 1).pending = some (getRandomUsername 1) :=
  have h1 := refresh_targets loadedState 1 sampleUser
  have h2 := refresh_targets idleState 1 sampleUser
  ⟨by rw [h1.1 rfl]; decide, h2.2.1 rfl, h1.2.2 rfl⟩

/-- Counterexample to C3 as stated: 502 is in the 5xx range but is not
mapped to ServerError — it falls to the default branch and is Unknown. -/
theorem http_5xx_cex :
    500 ≤ 502 ∧ 502 < 600 ∧
    (handleHttpError 502).kind = ErrKind.unknown ∧
    ¬(handleHttpError 502).kind = ErrKind.serverError := by
  decide

/-- Claim C3 (amended): 404 maps to NotFound, 403 to RateLimited, and
exactly 500 — not the whole 5xx range — to ServerError, each with its
fixed message; every other status maps to Unknown with the generic
message carrying the status. -/
theorem http_status_mapping (status : Nat)
    (h4 : status ≠ 404) (h3 : status ≠ 403) (h5 : status ≠ 500) :
    handleHttpError 404 =
      { kind := ErrKind.notFound,
        message := "User not found. Please try again." } ∧
    handleHttpError 403 =
      { kind := ErrKind.rateLimited,
        message := "API rate limit exceeded. Please try again later." } ∧
    handleHttpError 500 =
      { kind := ErrKind.serverError,
        message := "Server error. Please try again later." } ∧
    handleHttpError status =
      { kind := ErrKind.unknown,
        message := "HTTP error! status: " ++ toString status } := by
  refine ⟨by decide, by decide, by decide, ?_⟩
  unfold handleHttpError
  rw [if_neg h4, if_neg h3, if_neg h5]

/-- Witness for C3 (amended): status 502 lands in the default branch. -/
theorem http_status_mapping_witness :
    handleHttpError 502 =
      { kind := ErrKind.unknown,
        message := "HTTP error! status: " ++ toString 502 } :=
  (http_status_mapping 502 (by decide) (by decide) (by decide)).2.2.2

/-- Counterexample to C4 as stated: `fetchUserData` itself has no
validation branch — called with the empty handle it still performs one
network call, not zero. -/
theorem fetch_no_validation_cex :
    isValidUsername "" = false ∧
    (fetchUserData (fun _ => FetchOutcome.httpErr 404) "").2 = 1 ∧
    ¬(fetchUserData (fun _ => FetchOutcome.httpErr 404) "").2 = 0 := by
  decide

/-- Claim C4 (amended): the fail-fast validation lives in the Controller,
not in the DataSource fetch: `loadUser` with a handle that is not a
non-empty trimmed string short-circuits to the error panel with the fixed
validation message and makes no DataSource invocation. -/
theorem validation_in_controller (s : AppState) (username : String)
    (hl : s.isLoading = false) (hv : isValidUsername username = false) :
    loadUserStart s username =
      { state := s,
        effects := [Effect.showError "Please enter a valid username"],
        pending := none } ∧
    countFetch (loadUserStart s username).effects = 0 := by
  have h1 : loadUserStart s username =
      { state := s,
        effects := [Effect.showError "Please enter a valid username"],
        pending := none } := by
    simp [loadUserStart, hl, hv]
  refine ⟨h1, ?_⟩
  rw [h1]
  rfl

/-- Witness for C4 (amended): the empty handle on an idle instance. -/
theorem validation_in_controller_witness :
    loadUserStart idleState "" =
      { state := idleState,
        effects := [Effect.showError "Please enter a valid username"],
        pending := none } ∧
    countFetch (loadUserStart idleState "").effects = 0 :=
  validation_in_controller idleState "" rfl (by decide)

/-- Counterexample to C8 as stated: a validation failure of a by-handle
load shows the error panel but emits no transient notification. -/
theorem validation_silent_notice_cex :
    (runLoadUser idleState "" (FetchOutcome.httpErr 500)).2 =
      [Effect.showError "Please enter a valid username"] ∧
    countNotify (runLoadUser idleState "" (FetchOutcome.httpErr 500)).2 = 0 := by
  decide

/-- Claim C8 (amended): every DataSource failure of a load operation
produces both the persistent error panel and a transient notification
carrying the same message — the error's message, or `handleError`'s fixed
default when that message is empty; a validation failure produces only
the error panel (so it is not silent, but it carries no notification). -/
theorem failure_feedback (s : AppState) (k : Nat) (outcome : FetchOutcome)
    (e : ErrorInfo) (uGood uBad : String)
    (h : fetchResult outcome = Except.error e)
    (hl : s.isLoading = false)
    (hg : isValidUsername uGood = true)
    (hb : isValidUsername uBad = false) :
    (runLoadRandomUser s k outcome).2 =
      [Effect.showLoading, Effect.fetchCall (getRandomUsername k),
       Effect.showError (handleErrorMsg e),
       Effect.notify (handleErrorMsg e) "error"] ∧
    (runLoadUser s uGood outcome).2 =
      [Effect.showLoading, Effect.fetchCall uGood,
       Effect.showError (handleErrorMsg e),
       Effect.notify (handleErrorMsg e) "error"] ∧
    (∀ u, s.currentUser = some u →
      (runRefreshCurrentUser s k outcome).2 =
        [Effect.fetchCall (jsShow u.username),
         Effect.showError (handleErrorMsg e),
         Effect.notify (handleErrorMsg e) "error"]) ∧
    (runLoadUser s uBad outcome).2 =
      [Effect.showError "Please enter a valid username"] ∧
    countNotify (runLoadUser s uBad outcome).2 = 0 := by
  refine ⟨?_, ?_, ?_, ?_, ?_⟩
  · simp [runLoadRandomUser, loadRandomUserStart, hl, loadFinish, h]
  · simp [runLoadUser, loadUserStart, hl, hg, loadFinish, h]
  · intro u hc
    simp [runRefreshCurrentUser, hc, refreshFinish, h]
  · simp [runLoadUser, loadUserStart, hl, hb]
  · simp [runLoadUser, loadUserStart, hl, hb, countNotify]

/-- Witness for C8 (amended): a 404 on a by-handle load, and the empty
handle on the same instance. -/
theorem failure_feedback_witness :
    (runLoadUser loadedState "octocat" (FetchOutcome.httpErr 404)).2 =
      [Effect.showLoading, Effect.fetchCall "octocat",
       Effect.showError "User not found. Please try again.",
       Effect.notify "User not found. Please try again." "error"] ∧
    countNotify (runLoadUser loadedState "" (FetchOutcome.httpErr 404)).2 = 0 := by
  have h := failure_feedback loadedState 0 (FetchOutcome.httpErr 404)
    (handleHttpError 404) "octocat" "" rfl rfl (by decide) (by decide)
  refine ⟨?_, h.2.2.2.2⟩
  rw [h.2.1]
  decide

end ProfileCard
